import Mathlib

/-
Verification development for the SimplyRETS bulk-ingestion subsystem of the
real-estate-manager backend (Go sources: internal/services/simplyrets.go and
internal/models/property.go).  The Go code is shallowly embedded: pure Go
functions become Lean functions; goroutine scheduling, network I/O, the
cancellation token and the status-channel state are passed in explicitly as
an environment (`Env`), so one `Env` value fixes one concrete run of the
pipeline.  Machine integers that can only grow from zero are modelled as
`Nat`; Go `int` values that flow through `int32` conversions use `Int` with
an explicit two's-complement wrap.
-/

namespace RealEstate

/-- NullString mirrors models.NullString (a wrapped sql.NullString): a string
value together with a validity flag; `valid = false` is the explicit
"absent" sentinel. -/
structure NullString where
  string : String
  valid : Bool
deriving Repr, DecidableEq

/-- NullInt32 mirrors models.NullInt32 (a wrapped sql.NullInt32): an `int32`
value (modelled as a wrapped `Int`) together with a validity flag. -/
structure NullInt32 where
  int32 : Int
  valid : Bool
deriving Repr, DecidableEq

/-- wrap32 is Go's int32(i) conversion on an int: two's-complement wrap
into the range [-2^31, 2^31). -/
def wrap32 (i : Int) : Int :=
  (i + 2 ^ 31) % 2 ^ 32 - 2 ^ 31

/-- Photo mirrors models.Photo: original URL, local storage path, caption. -/
structure Photo where
  url : String
  localURL : String
  caption : String
deriving Repr, DecidableEq

/-- SimplyRETSAddress mirrors models.SimplyRETSAddress.  FlexibleString
fields are already normalized to `String` (FlexibleString.String() is the
identity on the underlying string). -/
structure SimplyRETSAddress where
  full : String
  unit : String
  streetNumber : String
  streetName : String
  city : String
  state : String
  postalCode : String
deriving Repr, DecidableEq

/-- SimplyRETSPropertyDetails mirrors models.SimplyRETSPropertyDetails. -/
structure SimplyRETSPropertyDetails where
  propertyType : String
  style : String
  yearBuilt : Int
  stories : Int
  area : Int
  lotSize : String
  bedrooms : Int
  bathrooms : Int
deriving Repr, DecidableEq

/-- SimplyRETSProperty mirrors models.SimplyRETSProperty, the raw external
listing record.  listPrice is float64 in Go; the pipeline only copies it
verbatim (no arithmetic), so it is carried here as an `Int` without loss
for any property proved below. -/
structure SimplyRETSProperty where
  listingId : String
  mlsNumber : String
  address : SimplyRETSAddress
  listPrice : Int
  property : SimplyRETSPropertyDetails
  photos : List String
  remarks : String
deriving Repr, DecidableEq

/-- Property mirrors models.Property, the internal record.  The Go struct
also has CreatedAt/UpdatedAt timestamps and an ID, all of which are left at
their zero values by convertToProperty and are set only by the database
layer, so they are omitted here. -/
structure Property where
  name : String
  location : String
  price : Int
  description : NullString
  photos : List Photo
  externalId : NullString
  mlsNumber : NullString
  propertyType : NullString
  bedrooms : NullInt32
  bathrooms : NullInt32
  squareFeet : NullInt32
  lotSize : NullString
  yearBuilt : NullInt32
deriving Repr, DecidableEq

/-- ProcessingStatus mirrors models.ProcessingStatus (the progress
snapshot).  Timestamps are abstract `Nat` instants.  The Go struct also has
an ID field that the pipeline never writes; it is omitted. -/
structure ProcessingStatus where
  status : String
  totalProperties : Nat
  processedCount : Nat
  failedCount : Nat
  startedAt : Nat
  completedAt : Option Nat
  errorMessage : String
deriving Repr, DecidableEq

/-- nullString mirrors the helper nullString in simplyrets.go: an empty
string becomes the absent sentinel, anything else is present. -/
def nullString (s : String) : NullString :=
  if s = "" then { string := "", valid := false }
  else { string := s, valid := true }

/-- nullInt32 mirrors the helper nullInt32 in simplyrets.go: zero becomes
the absent sentinel, anything else is present with the int32-wrapped
value. -/
def nullInt32 (i : Int) : NullInt32 :=
  if i = 0 then { int32 := 0, valid := false }
  else { int32 := wrap32 i, valid := true }

/-- convertToProperty mirrors SimplyRETSService.convertToProperty: the pure
mapping from the external record plus downloaded photos to the internal
Property. -/
def convertToProperty (sp : SimplyRETSProperty) (photos : List Photo) : Property :=
  { name := sp.address.streetNumber ++ " " ++ sp.address.streetName
    location := sp.address.full
    price := sp.listPrice
    description := nullString sp.remarks
    photos := photos
    externalId := nullString sp.listingId
    mlsNumber := nullString sp.mlsNumber
    propertyType := nullString sp.property.propertyType
    bedrooms := nullInt32 sp.property.bedrooms
    bathrooms := nullInt32 sp.property.bathrooms
    squareFeet := nullInt32 sp.property.area
    lotSize := nullString sp.property.lotSize
    yearBuilt := nullInt32 sp.property.yearBuilt }

/-- ListingOutcome is the I/O oracle for one listing: whether the download
goroutine for URL index m observes the cancelled context at its entry
check, the result of downloadImage for URL index m (local path or the
error message it returns), and the result of propertyRepo.Create if it is
reached. -/
structure ListingOutcome where
  urlCancel : Nat → Bool
  dl : Nat → Except String String
  persist : Option String

/-- FetchOutcome is the I/O oracle for fetchProperties: the request either
fails to build, fails on the wire, or yields an HTTP status code together
with the JSON decode result of the body. -/
inductive FetchOutcome where
  | reqError (e : String)
  | doError (e : String)
  | response (code : Nat) (decode : Except String (List SimplyRETSProperty))

/-- Env fixes one concrete run of a processing job: the fetch oracle, the
per-listing oracles, the points at which the shared cancellation token is
observed as cancelled, and the state of the job's status channel at each
publish attempt (the channel is closed by JobManager.RemoveJob; its
100-slot buffer never fills for the request sizes the handler admits, so
sends never block on a full buffer).  Publish attempts are numbered in
order: 0 is the initial snapshot, 1 the post-fetch snapshot, 2 + k the
snapshot after batch k (or the terminal snapshot once the loop stops). -/
structure Env where
  fetch : FetchOutcome
  outcome : SimplyRETSProperty → ListingOutcome
  workerCancel : SimplyRETSProperty → Bool
  cancelAtBoundary : Nat → Bool
  chanOpenAt : Nat → Bool
  ctxDoneAtSend : Nat → Bool
  pickSend : Nat → Bool
  startTime : Nat
  completionTime : Nat

/-- SendRes is the result of one channel-send attempt. -/
inductive SendRes where
  | delivered
  | earlyReturn
  | panicked
deriving Repr, DecidableEq

/-- plainSend models an unguarded `statusChan <- status`: it delivers when
the channel is open and panics (send on closed channel) otherwise. -/
def plainSend (chanOpen : Bool) : SendRes :=
  if chanOpen then .delivered else .panicked

/-- guardedSend models `select` over `statusChan <- status` and
`<-ctx.Done()`: if the context is done and the select picks that case the
send is abandoned (the enclosing Go function returns — in processBatch
this skips only that publish, at the initial snapshot it ends the
supervisor); otherwise the send happens, delivering on an open channel and
panicking on a closed one. -/
def guardedSend (chanOpen ctxDone pickSnd : Bool) : SendRes :=
  if ctxDone && !pickSnd then .earlyReturn
  else if chanOpen then .delivered else .panicked

/-- fetchProperties mirrors SimplyRETSService.fetchProperties: any request
error, non-200 status or decode failure is a terminal error with the
message the Go code wraps around the cause. -/
def fetchProperties : FetchOutcome → Except String (List SimplyRETSProperty)
  | .reqError e => .error ("failed to create request: " ++ e)
  | .doError e => .error ("failed to fetch properties: " ++ e)
  | .response code decode =>
    if code ≠ 200 then .error ("API returned status " ++ toString code)
    else
      match decode with
      | .error e => .error ("failed to decode response: " ++ e)
      | .ok props => .ok props

/-- imageWorker is the body of one download goroutine in downloadImages:
it first checks the cancellation token, then performs downloadImage and on
success builds the Photo with the ordinal caption. -/
def imageWorker (o : ListingOutcome) (m : Nat) (url : String) : Except String Photo :=
  if o.urlCancel m then .error ("context canceled")
  else
    match o.dl m with
    | .error e => .error e
    | .ok localPath =>
      .ok { url := url, localURL := localPath
            caption := "Property image " ++ toString (m + 1) }

/-- mapIdxFrom applies f to each element together with its index, starting
at n. -/
def mapIdxFrom (f : Nat → α → β) : Nat → List α → List β
  | _, [] => []
  | n, a :: as => f n a :: mapIdxFrom f (n + 1) as

/-- imageResults collects the per-URL goroutine results of downloadImages
in index order (the channel collection order does not affect anything the
caller observes: only the multiset of successes and failures is used). -/
def imageResults (o : ListingOutcome) (urls : List String) : List (Except String Photo) :=
  mapIdxFrom (imageWorker o) 0 urls

/-- downloadImages mirrors SimplyRETSService.downloadImages: no URLs means
no photos and no error; otherwise the successful photos are collected and,
if any worker failed, returned together with one combined error. -/
def downloadImages (o : ListingOutcome) (urls : List String) : List Photo × Option String :=
  if urls.isEmpty then ([], none)
  else
    let results := imageResults o urls
    let photos := results.filterMap (fun r => r.toOption)
    let errs := results.filterMap
      (fun r => match r with | .error e => some e | .ok _ => none)
    if errs.isEmpty then (photos, none)
    else (photos, some ("some images failed to download: " ++ String.intercalate "; " errs))

/-- PropTrace records everything one processProperty call did: the photos
it downloaded, the converted record if conversion was reached, whether the
listing was persisted, and the error result handed back to processBatch. -/
structure PropTrace where
  photos : List Photo
  converted : Option Property
  persisted : Bool
  result : Option String
deriving Repr, DecidableEq

/-- processProperty mirrors SimplyRETSService.processProperty: download all
images; any download error aborts the listing before conversion; otherwise
convert and persist, and a persistence error also fails the listing. -/
def processProperty (o : ListingOutcome) (sp : SimplyRETSProperty) : PropTrace :=
  match downloadImages o sp.photos with
  | (photos, some e) =>
    { photos := photos, converted := none, persisted := false
      result := some ("failed to download images for property " ++ sp.listingId ++ ": " ++ e) }
  | (photos, none) =>
    let prop := convertToProperty sp photos
    match o.persist with
    | some e =>
      { photos := photos, converted := some prop, persisted := false
        result := some ("failed to save property " ++ sp.listingId ++ ": " ++ e) }
    | none =>
      { photos := photos, converted := some prop, persisted := true, result := none }

/-- ListingAction is what the batch worker for one listing did: either it
observed the cancelled context at its entry check and reported ctx.Err()
without touching the listing, or it ran processProperty. -/
inductive ListingAction where
  | cancelled
  | worked (t : PropTrace)
deriving Repr, DecidableEq

/-- listingAction is the body of one batch worker goroutine in
processBatch. -/
def listingAction (env : Env) (sp : SimplyRETSProperty) : ListingAction :=
  if env.workerCancel sp then .cancelled
  else .worked (processProperty (env.outcome sp) sp)

/-- actionError is the error value the worker sends on the results channel:
ctx.Err() ("context canceled") for a worker that observed cancellation,
otherwise the processProperty result. -/
def actionError : ListingAction → Option String
  | .cancelled => some ("context canceled")
  | .worked t => t.result

/-- batchActions is the fan-out of processBatch: one worker per listing of
the batch. -/
def batchActions (env : Env) (batch : List SimplyRETSProperty) : List ListingAction :=
  batch.map (listingAction env)

/-- batchUpdate is the fan-in of processBatch: every error result bumps
FailedCount, every nil result bumps ProcessedCount. -/
def batchUpdate (st : ProcessingStatus) (acts : List ListingAction) : ProcessingStatus :=
  { st with
    failedCount := st.failedCount + acts.countP (fun a => (actionError a).isSome)
    processedCount := st.processedCount + acts.countP (fun a => (actionError a).isNone) }

/-- processBatch mirrors SimplyRETSService.processBatch: fan out one worker
per listing, wait for all, fold the results into the counters, then publish
the updated snapshot through the guarded send (attempt number `attempt`). -/
def processBatch (env : Env) (batch : List SimplyRETSProperty) (st : ProcessingStatus)
    (attempt : Nat) : ProcessingStatus × List ListingAction × SendRes :=
  (batchUpdate st (batchActions env batch), batchActions env batch,
    guardedSend (env.chanOpenAt attempt) (env.ctxDoneAtSend attempt) (env.pickSend attempt))

/-- RunOutcome says how the supervisor goroutine ended: normal completion
of processProperties, an uncaught panic (send on the closed status
channel), or an early return from the initial publish's select seeing
ctx.Done() — the only select whose return exits processProperties itself;
the select at the end of processBatch returns from processBatch alone and
the batch loop goes on. -/
inductive RunOutcome where
  | finished
  | panicked
  | ctxReturn
deriving Repr, DecidableEq

/-- Run is the observable record of one supervisor execution: the
snapshots actually delivered to the status channel in order, how the
goroutine ended, the snapshot passed to JobManager.MarkJobCompleted if
that call was reached, the supervisor's local status value at exit, and
every listing a batch worker handled together with what was done to it
(listings of batches that never started do not appear). -/
structure Run where
  published : List ProcessingStatus
  outcome : RunOutcome
  markCompleted : Option ProcessingStatus
  finalStatus : ProcessingStatus
  actions : List (SimplyRETSProperty × ListingAction)
deriving Repr, DecidableEq

/-- chunksGo is the fuel-indexed batch splitter; with fuel at least the
list length it yields the slices properties[i:i+10] of the Go loop. -/
def chunksGo (fuel : Nat) (l : List α) : List (List α) :=
  match fuel, l with
  | _, [] => []
  | 0, _ :: _ => []
  | f + 1, l@(_ :: _) => l.take 10 :: chunksGo f (l.drop 10)

/-- chunks10 splits the fetched listings into the batches of 10 (final
batch shorter) that the loop in processProperties iterates over. -/
def chunks10 (l : List α) : List (List α) :=
  chunksGo l.length l

/-- runBatches is the batch loop of processProperties.  k is the batch
index (the Go loop variable i is 10 * k), attempt the next publish-attempt
number, st the supervisor's local status, pub the snapshots delivered so
far and acc the listing work done so far.  Each iteration first observes
the cancellation token: if cancelled, the terminal cancelled snapshot is
built, sent unguarded, and MarkJobCompleted is reached only if that send
does not panic.  Otherwise the batch is processed (the counters are
updated via the results channel before the publish) and the guarded
publish runs: a delivered send records the snapshot; a select that sees
ctx.Done() instead returns from processBatch only, skipping that one
publish while the loop continues to the next boundary or to the completed
fall-through; a send on the closed channel panics and ends the
supervisor. -/
def runBatches (env : Env) : List (List SimplyRETSProperty) → Nat → Nat → ProcessingStatus →
    List ProcessingStatus → List (SimplyRETSProperty × ListingAction) → Run
  | [], _, attempt, st, pub, acc =>
    let fin := { st with status := "completed", completedAt := some env.completionTime }
    match plainSend (env.chanOpenAt attempt) with
    | .delivered =>
      { published := pub ++ [fin], outcome := .finished, markCompleted := some fin
        finalStatus := fin, actions := acc }
    | _ =>
      { published := pub, outcome := .panicked, markCompleted := none
        finalStatus := fin, actions := acc }
  | b :: rest, k, attempt, st, pub, acc =>
    if env.cancelAtBoundary k then
      let fin := { st with status := "cancelled", completedAt := some env.completionTime }
      match plainSend (env.chanOpenAt attempt) with
      | .delivered =>
        { published := pub ++ [fin], outcome := .finished, markCompleted := some fin
          finalStatus := fin, actions := acc }
      | _ =>
        { published := pub, outcome := .panicked, markCompleted := none
          finalStatus := fin, actions := acc }
    else
      let acts := batchActions env b
      let st1 := batchUpdate st acts
      match guardedSend (env.chanOpenAt attempt) (env.ctxDoneAtSend attempt) (env.pickSend attempt) with
      | .delivered => runBatches env rest (k + 1) (attempt + 1) st1 (pub ++ [st1]) (acc ++ b.zip acts)
      | .earlyReturn => runBatches env rest (k + 1) (attempt + 1) st1 pub (acc ++ b.zip acts)
      | .panicked =>
        { published := pub, outcome := .panicked, markCompleted := none
          finalStatus := st1, actions := acc ++ b.zip acts }

/-- initialStatus is the snapshot processProperties builds first: running,
all counters zero. -/
def initialStatus (env : Env) : ProcessingStatus :=
  { status := "running", totalProperties := 0, processedCount := 0, failedCount := 0
    startedAt := env.startTime, completedAt := none, errorMessage := "" }

/-- totalStatus is the snapshot published right after a successful fetch:
the initial snapshot with TotalProperties set to the listing count. -/
def totalStatus (env : Env) (props : List SimplyRETSProperty) : ProcessingStatus :=
  { initialStatus env with totalProperties := props.length }

/-- processProperties mirrors SimplyRETSService.processProperties, the
supervisor goroutine: publish the initial snapshot (guarded), fetch, on
fetch error publish the failed snapshot (unguarded) and mark completed;
on success publish the total (unguarded) and run the batch loop. -/
def processProperties (env : Env) : Run :=
  let st0 := initialStatus env
  match guardedSend (env.chanOpenAt 0) (env.ctxDoneAtSend 0) (env.pickSend 0) with
  | .earlyReturn =>
    { published := [], outcome := .ctxReturn, markCompleted := none
      finalStatus := st0, actions := [] }
  | .panicked =>
    { published := [], outcome := .panicked, markCompleted := none
      finalStatus := st0, actions := [] }
  | .delivered =>
    match fetchProperties env.fetch with
    | .error e =>
      let fin := { st0 with
                   status := "failed", errorMessage := e,
                   completedAt := some env.completionTime }
      match plainSend (env.chanOpenAt 1) with
      | .delivered =>
        { published := [st0, fin], outcome := .finished, markCompleted := some fin
          finalStatus := fin, actions := [] }
      | _ =>
        { published := [st0], outcome := .panicked, markCompleted := none
          finalStatus := fin, actions := [] }
    | .ok props =>
      let st1 := totalStatus env props
      match plainSend (env.chanOpenAt 1) with
      | .delivered => runBatches env (chunks10 props) 0 2 st1 [st0, st1] []
      | _ =>
        { published := [st0], outcome := .panicked, markCompleted := none
          finalStatus := st1, actions := [] }

/-- RegJob is the registry's view of a ProcessingJob: the cached last
snapshot, the completion instant, the job's start instant and the buffered
contents of its status channel (front of the list received first). -/
structure RegJob where
  lastStatus : Option ProcessingStatus
  completedAt : Option Nat
  startTime : Nat
  queue : List ProcessingStatus
deriving Repr, DecidableEq

/-- JobManager mirrors the registry map; all Go mutations run under its
lock, so its operations are modelled as sequential state transformers. -/
structure JobManager where
  jobs : List (String × RegJob)
deriving Repr, DecidableEq

/-- emptyManager is NewJobManager(). -/
def emptyManager : JobManager := { jobs := [] }

/-- JobRetentionDuration is the 5-minute retention window, in seconds. -/
def JobRetentionDuration : Nat := 5 * 60

/-- getJob mirrors JobManager.GetJob. -/
def getJob (jm : JobManager) (id : String) : Option RegJob :=
  match jm.jobs.find? (fun kv => kv.fst == id) with
  | some kv => some kv.snd
  | none => none

/-- addJob mirrors JobManager.AddJob: duplicate ids silently overwrite. -/
def addJob (jm : JobManager) (id : String) (j : RegJob) : JobManager :=
  { jobs := (id, j) :: jm.jobs.filter (fun kv => kv.fst != id) }

/-- removeJob mirrors JobManager.RemoveJob: close the job's status channel
and delete it from the map (a no-op when absent). -/
def removeJob (jm : JobManager) (id : String) : JobManager :=
  { jobs := jm.jobs.filter (fun kv => kv.fst != id) }

/-- markJobCompleted mirrors JobManager.MarkJobCompleted at instant now:
when the id is still registered, cache the final snapshot and the
completion time (the deferred cleanup it schedules is modelled by calling
cleanupJob at some wake instant at least JobRetentionDuration later). -/
def markJobCompleted (jm : JobManager) (id : String) (final : ProcessingStatus)
    (now : Nat) : JobManager :=
  match getJob jm id with
  | none => jm
  | some j => addJob jm id { j with lastStatus := some final, completedAt := some now }

/-- cleanupJob mirrors JobManager.CleanupJob at instant now: remove the job
only if it is registered, has a completion time, and the retention window
has fully elapsed since then. -/
def cleanupJob (jm : JobManager) (id : String) (now : Nat) : JobManager :=
  match getJob jm id with
  | none => jm
  | some j =>
    match j.completedAt with
    | none => jm
    | some tc => if JobRetentionDuration ≤ now - tc then removeJob jm id else jm

/-- cancelJob mirrors SimplyRETSService.CancelJob: unknown ids report
false; otherwise the job's context is cancelled (visible to the supervisor
through Env.cancelAtBoundary and the closing of its channel through
Env.chanOpenAt) and the job is removed from the registry at once. -/
def cancelJob (jm : JobManager) (id : String) : JobManager × Bool :=
  match getJob jm id with
  | none => (jm, false)
  | some _ => (removeJob jm id, true)

/-- getJobStatus mirrors SimplyRETSService.GetJobStatus: not-found for
unregistered ids; the cached snapshot when one exists; otherwise a
non-blocking read of the channel that caches, best-effort requeues and
returns the fresh snapshot; otherwise a synthesized minimal running
snapshot carrying the job's start time. -/
def getJobStatus (jm : JobManager) (id : String) : Option (ProcessingStatus × RegJob) :=
  match getJob jm id with
  | none => none
  | some j =>
    match j.lastStatus with
    | some s => some (s, j)
    | none =>
      match j.queue with
      | s :: rest =>
        let requeued := if rest.length < 100 then rest ++ [s] else rest
        some (s, { j with lastStatus := some s, queue := requeued })
      | [] =>
        some ({ status := "running", totalProperties := 0, processedCount := 0
                failedCount := 0, startedAt := j.startTime, completedAt := none
                errorMessage := "" }, j)

/-- counterLE compares two snapshots by their progress counters. -/
def counterLE (a b : ProcessingStatus) : Prop :=
  a.processedCount ≤ b.processedCount ∧ a.failedCount ≤ b.failedCount

/-- OptionalNormalized states the optional-field normalization contract of
convertToProperty for one external record sp and its converted record r:
each zero numeric optional and each empty-string optional is an explicit
absent sentinel, and every other value is explicitly present. -/
def OptionalNormalized (sp : SimplyRETSProperty) (r : Property) : Prop :=
  (sp.property.bedrooms = 0 → r.bedrooms = { int32 := 0, valid := false }) ∧
  (sp.property.bedrooms ≠ 0 →
    r.bedrooms = { int32 := wrap32 sp.property.bedrooms, valid := true }) ∧
  (sp.property.bathrooms = 0 → r.bathrooms = { int32 := 0, valid := false }) ∧
  (sp.property.bathrooms ≠ 0 →
    r.bathrooms = { int32 := wrap32 sp.property.bathrooms, valid := true }) ∧
  (sp.property.area = 0 → r.squareFeet = { int32 := 0, valid := false }) ∧
  (sp.property.area ≠ 0 →
    r.squareFeet = { int32 := wrap32 sp.property.area, valid := true }) ∧
  (sp.property.yearBuilt = 0 → r.yearBuilt = { int32 := 0, valid := false }) ∧
  (sp.property.yearBuilt ≠ 0 →
    r.yearBuilt = { int32 := wrap32 sp.property.yearBuilt, valid := true }) ∧
  (sp.property.lotSize = "" → r.lotSize = { string := "", valid := false }) ∧
  (sp.property.lotSize ≠ "" →
    r.lotSize = { string := sp.property.lotSize, valid := true }) ∧
  (sp.property.propertyType = "" → r.propertyType = { string := "", valid := false }) ∧
  (sp.property.propertyType ≠ "" →
    r.propertyType = { string := sp.property.propertyType, valid := true }) ∧
  (sp.remarks = "" → r.description = { string := "", valid := false }) ∧
  (sp.remarks ≠ "" → r.description = { string := sp.remarks, valid := true }) ∧
  (sp.listingId = "" → r.externalId = { string := "", valid := false }) ∧
  (sp.listingId ≠ "" → r.externalId = { string := sp.listingId, valid := true }) ∧
  (sp.mlsNumber = "" → r.mlsNumber = { string := "", valid := false }) ∧
  (sp.mlsNumber ≠ "" → r.mlsNumber = { string := sp.mlsNumber, valid := true })

/-- GetJobStatusSpec states the read contract of getJobStatus for a
registered job j: the query answers (never not-found), returning the
cached snapshot when one exists, else consuming, caching and best-effort
requeuing a fresh queued snapshot, else synthesizing a minimal running
snapshot with the job's start time. -/
def GetJobStatusSpec (jm : JobManager) (id : String) (j : RegJob) : Prop :=
  ∃ s j2, getJobStatus jm id = some (s, j2) ∧
    (∀ s0, j.lastStatus = some s0 → s = s0 ∧ j2 = j) ∧
    (j.lastStatus = none → ∀ s1 rest, j.queue = s1 :: rest →
      s = s1 ∧ j2.lastStatus = some s1 ∧
      j2.queue = (if rest.length < 100 then rest ++ [s1] else rest)) ∧
    (j.lastStatus = none → j.queue = [] →
      s.status = "running" ∧ s.startedAt = j.startTime ∧
      s.totalProperties = 0 ∧ s.processedCount = 0 ∧ s.failedCount = 0 ∧ j2 = j)

/-- addrEx is a concrete external address used by the witnesses. -/
def addrEx : SimplyRETSAddress :=
  { full := "123 Main St, Houston, TX", unit := "", streetNumber := "123"
    streetName := "Main St", city := "Houston", state := "TX", postalCode := "77002" }

/-- detEx is a concrete details record mixing present and absent optional
fields. -/
def detEx : SimplyRETSPropertyDetails :=
  { propertyType := "Residential", style := "", yearBuilt := 1990, stories := 1
    area := 1200, lotSize := "", bedrooms := 3, bathrooms := 0 }

/-- spEx is a concrete external listing with three media URLs. -/
def spEx : SimplyRETSProperty :=
  { listingId := "L1", mlsNumber := "M1", address := addrEx, listPrice := 500000
    property := detEx, photos := ["u0", "u1", "u2"], remarks := "Nice" }

/-- okOutcome is a listing oracle where every download and the persistence
call succeed. -/
def okOutcome : ListingOutcome :=
  { urlCancel := fun _ => false
    dl := fun m => .ok ("/images/L1_" ++ toString m ++ ".jpg")
    persist := none }

/-- cleanEnv is a fully healthy run: one listing fetched, nothing
cancelled, the status channel open throughout. -/
def cleanEnv : Env :=
  { fetch := .response 200 (.ok [spEx])
    outcome := fun _ => okOutcome
    workerCancel := fun _ => false
    cancelAtBoundary := fun _ => false
    chanOpenAt := fun _ => true
    ctxDoneAtSend := fun _ => false
    pickSend := fun _ => true
    startTime := 0
    completionTime := 9 }

/-- finEx is the terminal snapshot cleanEnv produces. -/
def finEx : ProcessingStatus :=
  { status := "completed", totalProperties := 1, processedCount := 1, failedCount := 0
    startedAt := 0, completedAt := some 9, errorMessage := "" }

/-- cancelRaceEnv is the run in which CancelJob fires while the supervisor
is between the post-fetch publish and the first batch: the cancellation
token reads cancelled at every boundary and the status channel (closed by
RemoveJob) is closed from publish attempt 2 on. -/
def cancelRaceEnv : Env :=
  { cleanEnv with
    cancelAtBoundary := fun _ => true
    chanOpenAt := fun n => decide (n < 2) }

/-- fetchFailEnv is a run whose source fetch returns HTTP 500. -/
def fetchFailEnv : Env :=
  { cleanEnv with fetch := .response 500 (.ok []) }

/-- fetchCancelRaceEnv is the run in which CancelJob fires while the
supervisor is inside the source fetch: the cancelled context aborts the
request (client.Do returns the wrapped context error) and the status
channel, closed by RemoveJob, is closed from publish attempt 1 on. -/
def fetchCancelRaceEnv : Env :=
  { cleanEnv with
    fetch := .doError ("context canceled")
    chanOpenAt := fun n => decide (n = 0) }

/-- partialOutcome is a listing oracle where the middle of three downloads
fails and the other two succeed. -/
def partialOutcome : ListingOutcome :=
  { urlCancel := fun _ => false
    dl := fun m => if m = 1 then .error ("download failed") else .ok ("/images/ok.jpg")
    persist := none }

/-- partialEnv is cleanEnv with partially failing media downloads. -/
def partialEnv : Env :=
  { cleanEnv with outcome := fun _ => partialOutcome }

/-- workerCancelEnv is a run in which every batch worker observes the
cancelled context at its entry check. -/
def workerCancelEnv : Env :=
  { cleanEnv with workerCancel := fun _ => true }

/-- props11 is a fetched list of eleven listings, giving two batches of
sizes 10 and 1. -/
def props11 : List SimplyRETSProperty := List.replicate 11 spEx

/-- cancelAt1Env is a run over props11 in which cancellation is first
observed at the boundary before the second batch, with the channel still
open. -/
def cancelAt1Env : Env :=
  { cleanEnv with
    fetch := .response 200 (.ok props11)
    cancelAtBoundary := fun k => decide (k = 1) }

/-- runningJob is a freshly registered job: no cached snapshot, empty
queue. -/
def runningJob : RegJob :=
  { lastStatus := none, completedAt := none, startTime := 3, queue := [] }

/-- RetentionSpec states the registry retention contract for a job that
reaches a terminal state through markJobCompleted at instant tc while
still registered: it stays queryable (and its status query returns the
final snapshot) until the scheduled cleanup wakes at tw, any cleanup
attempt strictly inside the window is a no-op, and the cleanup that wakes
at tw (which the Go code schedules no earlier than tc plus the retention
duration) removes it. -/
def RetentionSpec (id : String) (j0 : RegJob) (final : ProcessingStatus)
    (tc tw t : Nat) : Prop :=
  getJob (markJobCompleted (addJob emptyManager id j0) id final tc) id
    = some { j0 with lastStatus := some final, completedAt := some tc } ∧
  getJobStatus (markJobCompleted (addJob emptyManager id j0) id final tc) id
    = some (final, { j0 with lastStatus := some final, completedAt := some tc }) ∧
  cleanupJob (markJobCompleted (addJob emptyManager id j0) id final tc) id t
    = markJobCompleted (addJob emptyManager id j0) id final tc ∧
  getJob (cleanupJob (markJobCompleted (addJob emptyManager id j0) id final tc) id tw) id
    = none

/-- FailedFetchSpec states the behavior of a run whose source fetch fails
with message e: terminal failed snapshot with zero counters and the
nonempty message, published and handed to markJobCompleted, no batch work
done. -/
def FailedFetchSpec (env : Env) (e : String) : Prop :=
  ∃ fin, (processProperties env).markCompleted = some fin ∧
    fin.status = "failed" ∧
    fin.totalProperties = 0 ∧
    fin.processedCount = 0 ∧
    fin.failedCount = 0 ∧
    fin.errorMessage = e ∧
    e ≠ "" ∧
    (processProperties env).published = [initialStatus env, fin] ∧
    (processProperties env).actions = [] ∧
    (processProperties env).outcome = RunOutcome.finished

/-- MonotoneSpec states the snapshot invariant of a run with a successful
fetch: the delivered snapshots are the initial one, the one that fixes the
total, and a tail along which the counters never decrease and every
snapshot keeps processed + failed within the total. -/
def MonotoneSpec (env : Env) (props : List SimplyRETSProperty) : Prop :=
  ∃ tail, (processProperties env).published
      = initialStatus env :: totalStatus env props :: tail ∧
    List.Chain counterLE (totalStatus env props) tail ∧
    ∀ s ∈ totalStatus env props :: tail,
      s.processedCount + s.failedCount ≤ s.totalProperties ∧
      s.totalProperties = props.length

/-- CancelledSpec states the cancellation contract of a run whose token
reads cancelled at the boundary before batch j while the status channel is
still open: terminal cancelled snapshot published last and handed to
markJobCompleted, and every listing that was touched belongs to one of the
first j batches. -/
def CancelledSpec (env : Env) (props : List SimplyRETSProperty) (j : Nat) : Prop :=
  ∃ fin, (processProperties env).markCompleted = some fin ∧
    fin.status = "cancelled" ∧
    (processProperties env).outcome = RunOutcome.finished ∧
    (processProperties env).published.getLast? = some fin ∧
    ∀ pa ∈ (processProperties env).actions, pa.1 ∈ ((chunks10 props).take j).flatten

/-- PartialMediaSpec states the partial-media policy for one listing sp:
the listing is not persisted (nor even converted), its worker reports an
error, and in a batch it bumps the failed counter by exactly one and the
processed counter not at all. -/
def PartialMediaSpec (env : Env) (sp : SimplyRETSProperty)
    (st : ProcessingStatus) (att : Nat) : Prop :=
  (processProperty (env.outcome sp) sp).persisted = false ∧
  (processProperty (env.outcome sp) sp).converted = none ∧
  (processProperty (env.outcome sp) sp).result.isSome = true ∧
  (processBatch env [sp] st att).1.failedCount = st.failedCount + 1 ∧
  (processBatch env [sp] st att).1.processedCount = st.processedCount

/-- CancelledWorkerSpec states what a batch worker that observes the
cancelled context does for the listing at position i: it records the
context error as that listing's result without doing any work on it, and
the fan-in counts every error result (its own included) into the failed
counter while processed + failed still grows by exactly the batch size. -/
def CancelledWorkerSpec (env : Env) (batch : List SimplyRETSProperty)
    (st : ProcessingStatus) (att : Nat) (i : Nat) : Prop :=
  (processBatch env batch st att).2.1.get? i = some ListingAction.cancelled ∧
  actionError ListingAction.cancelled = some ("context canceled") ∧
  (∀ t, (processBatch env batch st att).2.1.get? i ≠ some (ListingAction.worked t)) ∧
  (processBatch env batch st att).1.failedCount
    = st.failedCount
      + (processBatch env batch st att).2.1.countP (fun a => (actionError a).isSome) ∧
  1 ≤ (processBatch env batch st att).2.1.countP (fun a => (actionError a).isSome) ∧
  (processBatch env batch st att).1.processedCount
      + (processBatch env batch st att).1.failedCount
    = st.processedCount + st.failedCount + batch.length

/-- append_ne_empty shows that prefixing a nonempty string keeps a string
nonempty. -/
theorem append_ne_empty (a b : String) (ha : a ≠ "") : a ++ b ≠ "" := by
  cases a with
  | mk la =>
    cases b with
    | mk lb =>
      intro h
      apply ha
      have hl : la ++ lb = [] := by
        have := congrArg String.data h
        simpa [String.data] using this
      have : la = [] := (List.append_eq_nil.mp hl).1
      simp [this]

/-- fetch_error_ne_empty shows that every terminal fetch error carries a
nonempty message (the Go code always wraps the cause in a literal). -/
theorem fetch_error_ne_empty (f : FetchOutcome) (e : String)
    (hf : fetchProperties f = .error e) : e ≠ "" := by
  cases f with
  | reqError e0 =>
    simp only [fetchProperties] at hf
    injection hf with h
    subst h
    exact append_ne_empty _ _ (by decide)
  | doError e0 =>
    simp only [fetchProperties] at hf
    injection hf with h
    subst h
    exact append_ne_empty _ _ (by decide)
  | response code dec =>
    simp only [fetchProperties] at hf
    split at hf
    · injection hf with h
      subst h
      exact append_ne_empty _ _ (by decide)
    · cases dec with
      | error e0 =>
        simp only at hf
        injection hf with h
        subst h
        exact append_ne_empty _ _ (by decide)
      | ok props => simp at hf

/-- countP_err_add_ok shows that over any action list, the failure count
and the success count sum to the list length. -/
theorem countP_err_add_ok (l : List ListingAction) :
    l.countP (fun a => (actionError a).isSome) + l.countP (fun a => (actionError a).isNone)
      = l.length := by
  induction l with
  | nil => rfl
  | cons a t ih =>
    simp only [List.countP_cons, List.length_cons]
    cases h : actionError a <;> simp [h] <;> omega

/-- batchUpdate_counts shows that folding in a batch's results adds exactly
the batch size to processed + failed. -/
theorem batchUpdate_counts (st : ProcessingStatus) (acts : List ListingAction) :
    (batchUpdate st acts).processedCount + (batchUpdate st acts).failedCount
      = st.processedCount + st.failedCount + acts.length := by
  have h := countP_err_add_ok acts
  simp only [batchUpdate]
  omega

/-- batchUpdate_total shows that folding in a batch's results never touches
the total. -/
theorem batchUpdate_total (st : ProcessingStatus) (acts : List ListingAction) :
    (batchUpdate st acts).totalProperties = st.totalProperties := rfl

/-- C9: conversion to the internal record normalizes every optional field:
zero numeric values and empty strings become explicit absent sentinels,
every other value becomes an explicit present value. -/
theorem claim_C9_optional_normalization (sp : SimplyRETSProperty) (photos : List Photo) :
    OptionalNormalized sp (convertToProperty sp photos) := by
  unfold OptionalNormalized convertToProperty nullInt32 nullString
  refine ⟨?_, ?_, ?_, ?_, ?_, ?_, ?_, ?_, ?_, ?_, ?_, ?_, ?_, ?_, ?_, ?_, ?_, ?_⟩ <;>
    intro h <;> simp [h]

/-- Witness for C9 at a concrete listing with both present and absent
optional fields. -/
theorem claim_C9_witness : OptionalNormalized spEx (convertToProperty spEx []) :=
  claim_C9_optional_normalization spEx []

/-- C7: a status query on a registered job never comes back absent: it
returns the cached snapshot when one exists, else consumes, caches and
best-effort requeues a fresh queued snapshot, else synthesizes a minimal
running snapshot carrying the job's start time. -/
theorem claim_C7_status_never_absent (jm : JobManager) (id : String) (j : RegJob)
    (h : getJob jm id = some j) : GetJobStatusSpec jm id j := by
  unfold GetJobStatusSpec
  cases hls : j.lastStatus with
  | some s0 =>
    refine ⟨s0, j, by simp [getJobStatus, h, hls], ?_, ?_, ?_⟩
    · intro s1 h1
      injection h1 with h1
      exact ⟨h1, rfl⟩
    · intro hn
      simp at hn
    · intro hn
      simp at hn
  | none =>
    cases hq : j.queue with
    | nil =>
      refine ⟨{ status := "running", totalProperties := 0, processedCount := 0
                failedCount := 0, startedAt := j.startTime, completedAt := none
                errorMessage := "" }, j, by simp [getJobStatus, h, hls, hq], ?_, ?_, ?_⟩
      · intro s1 h1
        simp at h1
      · intro _ s1 rest h1
        simp at h1
      · intro _ _
        exact ⟨rfl, rfl, rfl, rfl, rfl, rfl⟩
    | cons s1 rest =>
      refine ⟨s1,
              { j with
                lastStatus := some s1,
                queue := if rest.length < 100 then rest ++ [s1] else rest },
              by simp [getJobStatus, h, hls, hq], ?_, ?_, ?_⟩
      · intro s2 h2
        simp at h2
      · intro _ s2 rest2 h2
        injection h2 with h2a h2b
        subst h2a
        subst h2b
        exact ⟨rfl, rfl, rfl⟩
      · intro _ h2
        simp at h2

/-- Witness for C7 on a registered running job with an empty queue. -/
theorem claim_C7_witness :
    getJob (addJob emptyManager ("job-1") runningJob) ("job-1") = some runningJob ∧
    GetJobStatusSpec (addJob emptyManager ("job-1") runningJob) ("job-1") runningJob :=
  ⟨by decide, claim_C7_status_never_absent _ _ _ (by decide)⟩

/-- C4 amended: a job that reaches its terminal state through
markJobCompleted while still registered (the completed and failed paths)
stays queryable for the whole retention window and is removed only by the
deferred cleanup, which wakes no earlier than the window's end; a job
cancelled through cancelJob, by contrast, is removed from the registry at
once (see the counterexample). -/
theorem claim_C4_amended (id : String) (j0 : RegJob) (final : ProcessingStatus)
    (tc tw t : Nat) (hw : tc + JobRetentionDuration ≤ tw)
    (ht : t < tc + JobRetentionDuration) :
    RetentionSpec id j0 final tc tw t := by
  have hmk : markJobCompleted (addJob emptyManager id j0) id final tc
      = { jobs := [(id, { j0 with lastStatus := some final, completedAt := some tc })] } := by
    simp [markJobCompleted, addJob, emptyManager, getJob, List.find?, List.filter]
  have hskip : ¬ (JobRetentionDuration ≤ t - tc) := by
    unfold JobRetentionDuration at *
    omega
  have hfire : JobRetentionDuration ≤ tw - tc := by
    unfold JobRetentionDuration at *
    omega
  unfold RetentionSpec
  refine ⟨?_, ?_, ?_, ?_⟩
  · rw [hmk]
    simp [getJob, List.find?]
  · rw [hmk]
    simp [getJobStatus, getJob, List.find?]
  · rw [hmk]
    simp [cleanupJob, getJob, List.find?, hskip]
  · rw [hmk]
    simp [cleanupJob, getJob, List.find?, hfire, removeJob, List.filter]

/-- Witness for C4 amended at concrete instants 100 (completion), 250
(inside the window) and 400 (cleanup wake). -/
theorem claim_C4_witness :
    (100 + JobRetentionDuration ≤ 400 ∧ 250 < 100 + JobRetentionDuration) ∧
    RetentionSpec ("job-1") runningJob finEx 100 400 250 :=
  ⟨⟨by decide, by decide⟩,
   claim_C4_amended ("job-1") runningJob finEx 100 400 250 (by decide) (by decide)⟩

/-- Counterexample for C4 as stated: a job cancelled through cancelJob has
reached the terminal state cancelled (the supervisor's final status in the
corresponding run says so), yet a status query is not-found immediately,
long before the 5-minute retention window has elapsed. -/
theorem claim_C4_counterexample :
    (cancelJob (addJob emptyManager ("job-1") runningJob) ("job-1")).2 = true ∧
    getJob (cancelJob (addJob emptyManager ("job-1") runningJob) ("job-1")).1 ("job-1")
      = none ∧
    getJobStatus (cancelJob (addJob emptyManager ("job-1") runningJob) ("job-1")).1 ("job-1")
      = none ∧
    (processProperties cancelRaceEnv).finalStatus.status = "cancelled" := by
  decide

/-- C3: a listing whose media downloads only partially succeed (at least
one URL fails while at least one succeeds) is dropped: nothing is
persisted or converted, and its one error result bumps the failed counter
by exactly one however many of its downloads failed. -/
theorem claim_C3_partial_media (env : Env) (sp : SimplyRETSProperty)
    (st : ProcessingStatus) (att : Nat)
    (hw : env.workerCancel sp = false)
    (hfail : ∃ r ∈ imageResults (env.outcome sp) sp.photos, r.isOk = false)
    (_hsucc : ∃ r ∈ imageResults (env.outcome sp) sp.photos, r.isOk = true) :
    PartialMediaSpec env sp st att := by
  obtain ⟨rf, hrf, hrffailed⟩ := hfail
  have hne : ¬ sp.photos.isEmpty := by
    intro hemp
    rw [List.isEmpty_iff] at hemp
    rw [hemp] at hrf
    simp [imageResults, mapIdxFrom] at hrf
  obtain ⟨ef, hef⟩ : ∃ e, rf = Except.error e := by
    cases rf with
    | error e => exact ⟨e, rfl⟩
    | ok v => simp [Except.isOk, Except.toBool] at hrffailed
  have herrs : ¬ ((imageResults (env.outcome sp) sp.photos).filterMap
      (fun r => match r with | .error e => some e | .ok _ => none)).isEmpty := by
    rw [List.isEmpty_iff]
    intro hnil
    have : ef ∈ (imageResults (env.outcome sp) sp.photos).filterMap
        (fun r => match r with | .error e => some e | .ok _ => none) := by
      rw [List.mem_filterMap]
      exact ⟨rf, hrf, by rw [hef]⟩
    rw [hnil] at this
    simp at this
  obtain ⟨msg, hdl⟩ : ∃ m, downloadImages (env.outcome sp) sp.photos
      = ((imageResults (env.outcome sp) sp.photos).filterMap (fun r => r.toOption), some m) := by
    unfold downloadImages
    rw [if_neg hne]
    simp only [herrs, if_neg, Bool.false_eq_true, not_false_eq_true]
    exact ⟨_, rfl⟩
  have hpp : ∃ e, processProperty (env.outcome sp) sp
      = { photos := (imageResults (env.outcome sp) sp.photos).filterMap (fun r => r.toOption)
          converted := none, persisted := false, result := some e } := by
    unfold processProperty
    rw [hdl]
    exact ⟨_, rfl⟩
  obtain ⟨e, hpp⟩ := hpp
  unfold PartialMediaSpec
  refine ⟨by rw [hpp], by rw [hpp], by rw [hpp]; rfl, ?_, ?_⟩
  · simp [processBatch, batchUpdate, batchActions, listingAction, hw, List.countP,
      List.countP.go, actionError, hpp]
  · simp [processBatch, batchUpdate, batchActions, listingAction, hw, List.countP,
      List.countP.go, actionError, hpp]

/-- Witness for C3 on a listing with three media URLs of which exactly the
middle one fails. -/
theorem claim_C3_witness :
    (partialEnv.workerCancel spEx = false ∧
     (∃ r ∈ imageResults (partialEnv.outcome spEx) spEx.photos, r.isOk = false) ∧
     (∃ r ∈ imageResults (partialEnv.outcome spEx) spEx.photos, r.isOk = true)) ∧
    PartialMediaSpec partialEnv spEx finEx 2 :=
  ⟨⟨by decide, by decide, by decide⟩,
   claim_C3_partial_media partialEnv spEx finEx 2 (by decide) (by decide) (by decide)⟩

/-- C10: a batch worker that observes the cancelled context before
touching its listing reports the context error as that listing's result,
so the listing counts into the failed counter although no download,
conversion or persistence was attempted for it. -/
theorem claim_C10_cancelled_worker (env : Env) (batch : List SimplyRETSProperty)
    (st : ProcessingStatus) (att : Nat) (i : Nat) (hi : i < batch.length)
    (hc : env.workerCancel batch[i] = true) :
    CancelledWorkerSpec env batch st att i := by
  have hacts : (processBatch env batch st att).2.1 = batchActions env batch := rfl
  have hget : (batchActions env batch).get? i = some ListingAction.cancelled := by
    unfold batchActions
    rw [List.get?_eq_getElem?, List.getElem?_map, List.getElem?_eq_getElem hi]
    simp [listingAction, hc]
  have hmem : ListingAction.cancelled ∈ batchActions env batch := List.get?_mem hget
  unfold CancelledWorkerSpec
  rw [hacts]
  refine ⟨hget, rfl, ?_, rfl, ?_, ?_⟩
  · intro t ht
    rw [hget] at ht
    injection ht with ht
    cases ht
  · exact List.countP_pos_iff.mpr ⟨ListingAction.cancelled, hmem, rfl⟩
  · have h1 := batchUpdate_counts st (batchActions env batch)
    have h2 : (batchActions env batch).length = batch.length := by
      unfold batchActions
      exact List.length_map batch (listingAction env)
    calc (processBatch env batch st att).1.processedCount
        + (processBatch env batch st att).1.failedCount
      = (batchUpdate st (batchActions env batch)).processedCount
        + (batchUpdate st (batchActions env batch)).failedCount := rfl
    _ = st.processedCount + st.failedCount + (batchActions env batch).length := h1
    _ = st.processedCount + st.failedCount + batch.length := by rw [h2]

/-- Witness for C10: a one-listing batch whose worker observes
cancellation. -/
theorem claim_C10_witness :
    (0 < ([spEx]).length ∧ workerCancelEnv.workerCancel spEx = true) ∧
    CancelledWorkerSpec workerCancelEnv [spEx] finEx 2 0 :=
  ⟨⟨by decide, by decide⟩,
   claim_C10_cancelled_worker workerCancelEnv [spEx] finEx 2 0 (by decide) (by decide)⟩

/-- chunksGo_flatten shows that splitting into batches loses no listing,
for any sufficient fuel. -/
theorem chunksGo_flatten {α : Type _} : ∀ (fuel : Nat) (l : List α), l.length ≤ fuel →
    (chunksGo fuel l).flatten = l := by
  intro fuel
  induction fuel with
  | zero =>
    intro l hl
    cases l with
    | nil => rfl
    | cons a t => simp at hl
  | succ f ih =>
    intro l hl
    cases l with
    | nil => rfl
    | cons a t =>
      simp only [List.length_cons] at hl
      have h2 : ((a :: t).drop 10).length ≤ f := by
        rw [List.length_drop]
        simp only [List.length_cons]
        omega
      simp only [chunksGo, List.flatten_cons]
      rw [ih _ h2, List.take_append_drop]

/-- chunks10_flatten: the batches of 10 flatten back to the fetched
list. -/
theorem chunks10_flatten {α : Type _} (l : List α) : (chunks10 l).flatten = l :=
  chunksGo_flatten l.length l (Nat.le_refl _)

/-- chunks10_sum_length: the batch sizes sum to the number of fetched
listings. -/
theorem chunks10_sum_length {α : Type _} (l : List α) :
    ((chunks10 l).map List.length).sum = l.length := by
  rw [← List.length_flatten, chunks10_flatten]

/-- runBatches_completed_counts: whenever the batch loop hands a completed
snapshot to markJobCompleted, its counters account for exactly the
listings of all its batches on top of the incoming status, and the total
is untouched. -/
theorem runBatches_completed_counts (env : Env) (bs : List (List SimplyRETSProperty))
    (k a : Nat) (st : ProcessingStatus) (pub : List ProcessingStatus)
    (acc : List (SimplyRETSProperty × ListingAction)) (s : ProcessingStatus)
    (hmc : (runBatches env bs k a st pub acc).markCompleted = some s)
    (hs : s.status = "completed") :
    s.processedCount + s.failedCount
      = st.processedCount + st.failedCount + (bs.map List.length).sum ∧
    s.totalProperties = st.totalProperties := by
  induction bs generalizing k a st pub acc with
  | nil =>
    simp only [runBatches] at hmc
    split at hmc
    · simp only at hmc
      injection hmc with hmc
      subst hmc
      simp
    · simp at hmc
  | cons b rest ih =>
    simp only [runBatches] at hmc
    split at hmc
    · -- cancellation observed: the terminal status says cancelled
      split at hmc
      · simp only at hmc
        injection hmc with hmc
        subst hmc
        have h2 : ("cancelled" : String) = "completed" := hs
        exact absurd h2 (by decide)
      · simp at hmc
    · -- batch processed; the publish is delivered or skipped, then recurse
      split at hmc
      · -- delivered: recurse with the snapshot appended
        obtain ⟨h1, h2⟩ := ih (k + 1) (a + 1) (batchUpdate st (batchActions env b))
          (pub ++ [batchUpdate st (batchActions env b)])
          (acc ++ b.zip (batchActions env b)) hmc
        have hc := batchUpdate_counts st (batchActions env b)
        have hlen : (batchActions env b).length = b.length :=
          List.length_map b (listingAction env)
        have ht := batchUpdate_total st (batchActions env b)
        rw [List.map_cons, List.sum_cons]
        constructor
        · omega
        · rw [h2, ht]
      · -- publish skipped by the ctx-done select: recurse, nothing published
        obtain ⟨h1, h2⟩ := ih (k + 1) (a + 1) (batchUpdate st (batchActions env b))
          pub (acc ++ b.zip (batchActions env b)) hmc
        have hc := batchUpdate_counts st (batchActions env b)
        have hlen : (batchActions env b).length = b.length :=
          List.length_map b (listingAction env)
        have ht := batchUpdate_total st (batchActions env b)
        rw [List.map_cons, List.sum_cons]
        constructor
        · omega
        · rw [h2, ht]
      · simp at hmc

/-- runBatches_published: the batch loop only appends snapshots, the
appended snapshots have nondecreasing counters starting from the incoming
status, they never change the total, and their counters stay within the
incoming counters plus the listings of all remaining batches. -/
theorem runBatches_published (env : Env) (bs : List (List SimplyRETSProperty))
    (k a : Nat) (st : ProcessingStatus) (pub : List ProcessingStatus)
    (acc : List (SimplyRETSProperty × ListingAction)) :
    ∃ tail, (runBatches env bs k a st pub acc).published = pub ++ tail ∧
      List.Chain counterLE st tail ∧
      ∀ s ∈ tail, s.totalProperties = st.totalProperties ∧
        s.processedCount + s.failedCount
          ≤ st.processedCount + st.failedCount + (bs.map List.length).sum := by
  induction bs generalizing k a st pub acc with
  | nil =>
    simp only [runBatches]
    split
    · refine ⟨[{ st with status := "completed", completedAt := some env.completionTime }],
        by simp, List.Chain.cons ⟨Nat.le_refl _, Nat.le_refl _⟩ List.Chain.nil, ?_⟩
      intro s hs
      rw [List.mem_singleton] at hs
      subst hs
      simp
    · exact ⟨[], by simp, List.Chain.nil, by simp⟩
  | cons b rest ih =>
    simp only [runBatches]
    split
    · split
      · refine ⟨[{ st with status := "cancelled", completedAt := some env.completionTime }],
          by simp, List.Chain.cons ⟨Nat.le_refl _, Nat.le_refl _⟩ List.Chain.nil, ?_⟩
        intro s hs
        rw [List.mem_singleton] at hs
        subst hs
        simp
      · exact ⟨[], by simp, List.Chain.nil, by simp⟩
    · split
      · obtain ⟨tail, hpub, hchain, hbound⟩ := ih (k + 1) (a + 1)
          (batchUpdate st (batchActions env b))
          (pub ++ [batchUpdate st (batchActions env b)])
          (acc ++ b.zip (batchActions env b))
        refine ⟨batchUpdate st (batchActions env b) :: tail, ?_, ?_, ?_⟩
        · rw [hpub, List.append_assoc]
          rfl
        · exact List.Chain.cons ⟨Nat.le_add_right _ _, Nat.le_add_right _ _⟩ hchain
        · intro s hs
          have hc := batchUpdate_counts st (batchActions env b)
          have hlen : (batchActions env b).length = b.length :=
            List.length_map b (listingAction env)
          have ht := batchUpdate_total st (batchActions env b)
          rw [List.map_cons, List.sum_cons]
          rcases List.mem_cons.mp hs with h | h
          · subst h
            exact ⟨ht, by omega⟩
          · obtain ⟨ht2, hb2⟩ := hbound s h
            refine ⟨by rw [ht2, ht], by omega⟩
      · -- publish skipped by the ctx-done select: the loop continues
        obtain ⟨tail, hpub, hchain, hbound⟩ := ih (k + 1) (a + 1)
          (batchUpdate st (batchActions env b)) pub
          (acc ++ b.zip (batchActions env b))
        refine ⟨tail, hpub, ?_, ?_⟩
        · cases hchain with
          | nil => exact List.Chain.nil
          | cons hr hrest =>
            exact List.Chain.cons
              ⟨Nat.le_trans (Nat.le_add_right _ _) hr.1,
               Nat.le_trans (Nat.le_add_right _ _) hr.2⟩ hrest
        · intro s hs
          obtain ⟨ht2, hb2⟩ := hbound s hs
          have hc := batchUpdate_counts st (batchActions env b)
          have hlen : (batchActions env b).length = b.length :=
            List.length_map b (listingAction env)
          have ht := batchUpdate_total st (batchActions env b)
          rw [List.map_cons, List.sum_cons]
          exact ⟨by rw [ht2, ht], by omega⟩
      · exact ⟨[], by simp, List.Chain.nil, by simp⟩

/-- runBatches_cancelled: if the cancellation token reads false at the
first j boundaries and true at boundary j, the earlier guarded publishes
all deliver and the channel is open through the cancellation publish, then
the loop ends normally with a cancelled snapshot, published last and
handed to markJobCompleted, and every touched listing beyond the incoming
accumulator belongs to the first j batches. -/
theorem runBatches_cancelled (env : Env) (j : Nat) :
    ∀ (bs : List (List SimplyRETSProperty)) (k a : Nat) (st : ProcessingStatus)
      (pub : List ProcessingStatus) (acc : List (SimplyRETSProperty × ListingAction)),
      j < bs.length →
      (∀ i, i < j → env.cancelAtBoundary (k + i) = false) →
      env.cancelAtBoundary (k + j) = true →
      (∀ i, i < j → env.ctxDoneAtSend (a + i) = false) →
      (∀ i, i ≤ j → env.chanOpenAt (a + i) = true) →
      ∃ fin, (runBatches env bs k a st pub acc).markCompleted = some fin ∧
        fin.status = "cancelled" ∧
        (runBatches env bs k a st pub acc).outcome = RunOutcome.finished ∧
        (runBatches env bs k a st pub acc).published.getLast? = some fin ∧
        ∀ pa ∈ (runBatches env bs k a st pub acc).actions,
          pa ∈ acc ∨ pa.1 ∈ (bs.take j).flatten := by
  induction j with
  | zero =>
    intro bs k a st pub acc hlen hpre hcan hdone hopen
    cases bs with
    | nil => simp at hlen
    | cons b rest =>
      have hc : env.cancelAtBoundary k = true := by simpa using hcan
      have ho : env.chanOpenAt a = true := by simpa using hopen 0 (Nat.le_refl 0)
      refine ⟨{ st with status := "cancelled", completedAt := some env.completionTime },
        ?_, rfl, ?_, ?_, ?_⟩
      · simp [runBatches, hc, plainSend, ho]
      · simp [runBatches, hc, plainSend, ho]
      · simp [runBatches, hc, plainSend, ho, List.getLast?_concat]
      · simp only [runBatches, hc, plainSend, ho, if_true]
        intro pa hpa
        exact Or.inl hpa
  | succ n ih =>
    intro bs k a st pub acc hlen hpre hcan hdone hopen
    cases bs with
    | nil => simp at hlen
    | cons b rest =>
      have hc0 : env.cancelAtBoundary k = false := by simpa using hpre 0 (Nat.succ_pos n)
      have hd0 : env.ctxDoneAtSend a = false := by simpa using hdone 0 (Nat.succ_pos n)
      have ho0 : env.chanOpenAt a = true := by simpa using hopen 0 (Nat.zero_le _)
      have hsend : guardedSend (env.chanOpenAt a) (env.ctxDoneAtSend a) (env.pickSend a)
          = SendRes.delivered := by
        rw [hd0, ho0]
        rfl
      obtain ⟨fin, h1, h2, h3, h4, h5⟩ := ih rest (k + 1) (a + 1)
        (batchUpdate st (batchActions env b))
        (pub ++ [batchUpdate st (batchActions env b)])
        (acc ++ b.zip (batchActions env b))
        (by simpa using hlen)
        (fun i hi => by
          have h := hpre (i + 1) (by omega)
          rw [show k + (i + 1) = k + 1 + i by omega] at h
          exact h)
        (by
          have h := hcan
          rw [show k + (n + 1) = k + 1 + n by omega] at h
          exact h)
        (fun i hi => by
          have h := hdone (i + 1) (by omega)
          rw [show a + (i + 1) = a + 1 + i by omega] at h
          exact h)
        (fun i hi => by
          have h := hopen (i + 1) (by omega)
          rw [show a + (i + 1) = a + 1 + i by omega] at h
          exact h)
      refine ⟨fin, ?_, h2, ?_, ?_, ?_⟩
      · simp only [runBatches, hc0, hsend, if_false, Bool.false_eq_true]
        exact h1
      · simp only [runBatches, hc0, hsend, if_false, Bool.false_eq_true]
        exact h3
      · simp only [runBatches, hc0, hsend, if_false, Bool.false_eq_true]
        exact h4
      · simp only [runBatches, hc0, hsend, if_false, Bool.false_eq_true]
        intro pa hpa
        obtain ⟨x, y⟩ := pa
        rcases h5 (x, y) hpa with h | h
        · rcases List.mem_append.mp h with h | h
          · exact Or.inl h
          · right
            rw [List.take_succ_cons, List.flatten_cons]
            exact List.mem_append.mpr (Or.inl (List.of_mem_zip h).1)
        · right
          rw [List.take_succ_cons, List.flatten_cons]
          exact List.mem_append.mpr (Or.inr h)

/-- processProperties_ok reduces a run with a delivered initial publish, a
successful fetch and an open channel at the total publish to its batch
loop. -/
theorem processProperties_ok (env : Env) (props : List SimplyRETSProperty)
    (h0 : env.chanOpenAt 0 = true) (hd0 : env.ctxDoneAtSend 0 = false)
    (h1 : env.chanOpenAt 1 = true) (hf : fetchProperties env.fetch = .ok props) :
    processProperties env
      = runBatches env (chunks10 props) 0 2 (totalStatus env props)
          [initialStatus env, totalStatus env props] [] := by
  have hg : guardedSend (env.chanOpenAt 0) (env.ctxDoneAtSend 0) (env.pickSend 0)
      = SendRes.delivered := by
    rw [h0, hd0]
    rfl
  have hp : plainSend (env.chanOpenAt 1) = SendRes.delivered := by
    rw [h1]
    rfl
  simp only [processProperties, hg, hf, hp]

/-- C1: a run whose fetch succeeds and whose job completes hands
markJobCompleted a snapshot with processed + failed equal to the total,
which is the fetched listing count. -/
theorem claim_C1_completed_counts (env : Env) (props : List SimplyRETSProperty)
    (s : ProcessingStatus) (hf : fetchProperties env.fetch = .ok props)
    (hmc : (processProperties env).markCompleted = some s)
    (hs : s.status = "completed") :
    s.processedCount + s.failedCount = s.totalProperties ∧
    s.totalProperties = props.length := by
  unfold processProperties at hmc
  split at hmc
  · simp at hmc
  · simp at hmc
  · rw [hf] at hmc
    simp only at hmc
    split at hmc
    · obtain ⟨h1, h2⟩ := runBatches_completed_counts env (chunks10 props) 0 2
        (totalStatus env props) [initialStatus env, totalStatus env props] [] s hmc hs
      have hsum := chunks10_sum_length props
      simp only [totalStatus, initialStatus] at h1 h2
      constructor
      · omega
      · omega
    · simp at hmc

/-- Witness for C1 on a clean one-listing run that completes. -/
theorem claim_C1_witness :
    (fetchProperties cleanEnv.fetch = Except.ok [spEx] ∧
     (processProperties cleanEnv).markCompleted = some finEx ∧
     finEx.status = "completed") ∧
    (finEx.processedCount + finEx.failedCount = finEx.totalProperties ∧
     finEx.totalProperties = ([spEx]).length) :=
  ⟨⟨rfl, by decide, by decide⟩,
   claim_C1_completed_counts cleanEnv [spEx] finEx rfl (by decide) (by decide)⟩

/-- C6 amended: a run whose source fetch fails publishes and hands off a
failed snapshot with zero counters and a nonempty error message, and
processes no batch — provided the initial publish was delivered and the
status channel is still open at the failure publish (no concurrent cancel
has removed the job and closed it).  When CancelJob has already closed the
channel — a cancellation-aborted fetch being itself one of the request
errors — the unguarded send at the failure publish panics instead and
neither the publish nor markCompleted happens (see the counterexample). -/
theorem claim_C6_fetch_failure (env : Env) (e : String)
    (hf : fetchProperties env.fetch = .error e)
    (h0 : env.chanOpenAt 0 = true) (hd0 : env.ctxDoneAtSend 0 = false)
    (h1 : env.chanOpenAt 1 = true) : FailedFetchSpec env e := by
  have hg : guardedSend (env.chanOpenAt 0) (env.ctxDoneAtSend 0) (env.pickSend 0)
      = SendRes.delivered := by
    rw [h0, hd0]
    rfl
  have hp : plainSend (env.chanOpenAt 1) = SendRes.delivered := by
    rw [h1]
    rfl
  rw [FailedFetchSpec]
  refine ⟨{ initialStatus env with
            status := "failed", errorMessage := e,
            completedAt := some env.completionTime }, ?_⟩
  simp only [processProperties, hg, hf, hp]
  simp [fetch_error_ne_empty env.fetch e hf, initialStatus]

/-- Witness for C6 on a fetch that returns HTTP 500. -/
theorem claim_C6_witness :
    (fetchProperties fetchFailEnv.fetch = Except.error ("API returned status 500") ∧
     fetchFailEnv.chanOpenAt 0 = true ∧ fetchFailEnv.ctxDoneAtSend 0 = false ∧
     fetchFailEnv.chanOpenAt 1 = true) ∧
    FailedFetchSpec fetchFailEnv ("API returned status 500") :=
  ⟨⟨rfl, by decide, by decide, by decide⟩,
   claim_C6_fetch_failure fetchFailEnv ("API returned status 500")
     rfl (by decide) (by decide) (by decide)⟩

/-- Counterexample for C6 as stated: in the run where CancelJob aborts the
in-flight fetch (one of the claim's request errors) and RemoveJob has
closed the status channel, the supervisor panics on the unguarded failure
publish, so no snapshot with state failed is ever published and
markJobCompleted is never reached. -/
theorem claim_C6_counterexample :
    fetchProperties fetchCancelRaceEnv.fetch
      = Except.error ("failed to fetch properties: context canceled") ∧
    (processProperties fetchCancelRaceEnv).outcome = RunOutcome.panicked ∧
    (processProperties fetchCancelRaceEnv).markCompleted = none ∧
    (processProperties fetchCancelRaceEnv).published.all
      (fun s => s.status != "failed") = true :=
  ⟨rfl, by decide, by decide, by decide⟩

/-- C8: once the total is fixed after a successful fetch, every snapshot
delivered to the channel keeps processed + failed within the total, and
the counters never decrease along the delivered sequence. -/
theorem claim_C8_monotone (env : Env) (props : List SimplyRETSProperty)
    (h0 : env.chanOpenAt 0 = true) (hd0 : env.ctxDoneAtSend 0 = false)
    (h1 : env.chanOpenAt 1 = true) (hf : fetchProperties env.fetch = .ok props) :
    MonotoneSpec env props := by
  rw [MonotoneSpec, processProperties_ok env props h0 hd0 h1 hf]
  obtain ⟨tail, hpub, hchain, hbound⟩ := runBatches_published env (chunks10 props) 0 2
    (totalStatus env props) [initialStatus env, totalStatus env props] []
  refine ⟨tail, by rw [hpub]; rfl, hchain, ?_⟩
  intro s hs
  have hsum := chunks10_sum_length props
  rcases List.mem_cons.mp hs with h | h
  · subst h
    simp [totalStatus, initialStatus]
  · obtain ⟨ht, hb⟩ := hbound s h
    simp only [totalStatus, initialStatus] at ht hb
    constructor
    · omega
    · omega

/-- Witness for C8 on the clean one-listing run. -/
theorem claim_C8_witness :
    (cleanEnv.chanOpenAt 0 = true ∧ cleanEnv.ctxDoneAtSend 0 = false ∧
     cleanEnv.chanOpenAt 1 = true ∧ fetchProperties cleanEnv.fetch = Except.ok [spEx]) ∧
    MonotoneSpec cleanEnv [spEx] :=
  ⟨⟨by decide, by decide, by decide, rfl⟩,
   claim_C8_monotone cleanEnv [spEx] (by decide) (by decide) (by decide) rfl⟩

/-- C2 amended: when the cancellation token is first observed at the
boundary before batch j and the status channel is still open at the
cancellation publish (the earlier publishes having been delivered), the
job ends in state cancelled, the cancelled snapshot is published last and
handed to markJobCompleted, and no listing of a batch that had not started
is ever touched.  Without the open-channel proviso the publish panics
instead (see the counterexample). -/
theorem claim_C2_cancellation (env : Env) (props : List SimplyRETSProperty) (j : Nat)
    (h0 : env.chanOpenAt 0 = true) (hd0 : env.ctxDoneAtSend 0 = false)
    (h1 : env.chanOpenAt 1 = true) (hf : fetchProperties env.fetch = .ok props)
    (hj : j < (chunks10 props).length)
    (hpre : ∀ i, i < j → env.cancelAtBoundary i = false)
    (hcan : env.cancelAtBoundary j = true)
    (hdone : ∀ i, i < j → env.ctxDoneAtSend (2 + i) = false)
    (hopen : ∀ i, i ≤ j → env.chanOpenAt (2 + i) = true) :
    CancelledSpec env props j := by
  rw [CancelledSpec, processProperties_ok env props h0 hd0 h1 hf]
  obtain ⟨fin, h1', h2', h3', h4', h5'⟩ := runBatches_cancelled env j (chunks10 props) 0 2
    (totalStatus env props) [initialStatus env, totalStatus env props] [] hj
    (fun i hi => by
      have h := hpre i hi
      rw [Nat.zero_add]
      exact h)
    (by
      rw [Nat.zero_add]
      exact hcan)
    hdone hopen
  refine ⟨fin, h1', h2', h3', h4', ?_⟩
  intro pa hpa
  rcases h5' pa hpa with h | h
  · simp at h
  · exact h

/-- Witness for C2 amended: eleven listings, two batches, cancellation
observed at the boundary before the second batch with the channel open. -/
theorem claim_C2_witness :
    (cancelAt1Env.chanOpenAt 0 = true ∧ cancelAt1Env.ctxDoneAtSend 0 = false ∧
     cancelAt1Env.chanOpenAt 1 = true ∧
     fetchProperties cancelAt1Env.fetch = Except.ok props11 ∧
     1 < (chunks10 props11).length ∧
     (∀ i, i < 1 → cancelAt1Env.cancelAtBoundary i = false) ∧
     cancelAt1Env.cancelAtBoundary 1 = true ∧
     (∀ i, i < 1 → cancelAt1Env.ctxDoneAtSend (2 + i) = false) ∧
     (∀ i, i ≤ 1 → cancelAt1Env.chanOpenAt (2 + i) = true)) ∧
    CancelledSpec cancelAt1Env props11 1 :=
  ⟨⟨by decide, by decide, by decide, rfl, by decide, by decide, by decide,
    by decide, by decide⟩,
   claim_C2_cancellation cancelAt1Env props11 1 (by decide) (by decide) (by decide)
     rfl (by decide) (by decide) (by decide) (by decide) (by decide)⟩

/-- Counterexample for C2 as stated: in the run where CancelJob has
already removed the job (closing its channel) when the supervisor observes
the cancellation at the first boundary, no snapshot with state cancelled
is ever published and markJobCompleted is never reached — the supervisor
panics on the send instead. -/
theorem claim_C2_counterexample :
    cancelRaceEnv.cancelAtBoundary 0 = true ∧
    (processProperties cancelRaceEnv).outcome = RunOutcome.panicked ∧
    (processProperties cancelRaceEnv).markCompleted = none ∧
    (processProperties cancelRaceEnv).published.all
      (fun s => s.status != "cancelled") = true := by
  decide

/-- C5, evaluated at the failing scenario: when the job is cancelled and
removed from the registry (which closes the status channel) while the
supervisor is still publishing, the supervisor's unguarded send on the
closed channel panics — an uncaught failure escapes the supervisor task,
contradicting the claim. -/
theorem claim_C5_cancel_publish_panics :
    (processProperties cancelRaceEnv).outcome = RunOutcome.panicked ∧
    (processProperties cancelRaceEnv).finalStatus.status = "cancelled" ∧
    (processProperties cancelRaceEnv).markCompleted = none := by
  decide

end RealEstate
